import Mathlib

/-!
Verification of the PFC conversation engine (`src/plugins/PFC/pfc.py`).

The Python module is shallowly embedded: each relevant method is translated
into an executable Lean definition, with Python exceptions rendered as
`Except Unit`, Python `float` timestamps as exact rationals, Python `None`
as `Option.none`, and Python truthiness made explicit (`None` and `0.0`
and `""` are falsy).  External collaborators (the LLM call, the chat
observer, the message sender) are parameters: a definition receives the
collaborator's outcome as an argument and models only the code of this
module around it.
-/

namespace PFC

/-- Embeds `ConversationState` (pfc.py lines 29-41). -/
inductive ConversationState where
  | INIT
  | RETHINKING
  | ANALYZING
  | PLANNING
  | GENERATING
  | CHECKING
  | SENDING
  | WAITING
  | LISTENING
  | ENDED
  | JUDGING
deriving DecidableEq, Repr

/-- A goal triple `(goal, method, reasoning)` as stored in `GoalAnalyzer.goals`. -/
abbrev Goal := String × String × String

namespace GoalAnalyzer

/-- Embeds `GoalAnalyzer._calculate_similarity` (pfc.py lines 416-433):
character-set Jaccard overlap of the two goal strings, `overlap / total`,
and `0` when the union is empty.  Computed in exact rationals. -/
def calculate_similarity (goal1 goal2 : String) : ℚ :=
  let words1 : Finset Char := goal1.toList.toFinset
  let words2 : Finset Char := goal2.toList.toFinset
  let overlap := (words1 ∩ words2).card
  let total := (words1 ∪ words2).card
  if total > 0 then (overlap : ℚ) / (total : ℚ) else 0

/-- The predicate the source applies to each existing goal in
`_update_goals`: similarity with the new goal STRICTLY above `0.7`. -/
def similar_to (new_goal : String) (g : Goal) : Bool :=
  decide (calculate_similarity new_goal g.1 > (7 : ℚ) / 10)

/-- Nat-arithmetic form of the intersection cardinality used by the
similarity score (helper for concrete evaluation). -/
def overlapN (g1 g2 : String) : ℕ := (g1.toList.toFinset ∩ g2.toList.toFinset).card

/-- Nat-arithmetic form of the union cardinality used by the similarity
score (helper for concrete evaluation). -/
def totalN (g1 g2 : String) : ℕ := (g1.toList.toFinset ∪ g2.toList.toFinset).card

/-- Kernel-computable version of `similar_to` (rational arithmetic does not
reduce in the kernel, so concrete instances go through this form). -/
def similar_toN (new_goal : String) (g : Goal) : Bool :=
  decide (7 * totalN new_goal g.1 < 10 * overlapN new_goal g.1)

/-- Embeds `GoalAnalyzer._update_goals` (pfc.py lines 392-414).
The first existing goal with similarity `> 0.7` is replaced by the new
triple and moved to the front; otherwise the new triple is inserted at the
front and, when the list then exceeds `max_goals = 3`, the last entry is
popped. -/
def update_goals (goals : List Goal) (new_goal method reasoning : String) : List Goal :=
  match goals.findIdx? (similar_to new_goal) with
  | some i => (new_goal, method, reasoning) :: goals.eraseIdx i
  | none =>
    let gs := (new_goal, method, reasoning) :: goals
    if gs.length > 3 then gs.dropLast else gs

/-- Embeds `GoalAnalyzer.get_alternative_goals` (pfc.py lines 443-451):
`goals[1:]` when more than one goal is held, else `[]`. -/
def get_alternative_goals (goals : List Goal) : List Goal :=
  if goals.length ≤ 1 then [] else goals.tail

/-- Embeds the goal-list mutation inside `GoalAnalyzer.analyze_conversation`
(pfc.py lines 503-511): when the parsed judgment is achieved and not
stopping, the first goal whose text equals the judged goal is popped, and
if goals remain the stop flag is forced to `false`.  Returns the new goal
list and the resulting stop flag. -/
def analyze_conversation_update (goals : List Goal) (goal : String) (achieved stop : Bool) :
    List Goal × Bool :=
  if achieved && !stop then
    match goals.findIdx? (fun t => t.1 == goal) with
    | some i =>
      let goals' := goals.eraseIdx i
      (goals', if goals'.isEmpty then stop else false)
    | none => (goals, stop)
  else (goals, stop)

/-- Embeds `GoalAnalyzer.analyze_conversation` (pfc.py lines 453-517)
around the external LLM call.  The collaborator outcome is a parameter:
`.error` models a raised exception, `.ok none` a response that failed
JSON extraction, `.ok (some (achieved, stop, reason))` a parsed judgment.
Returns the new goal list together with the returned triple. -/
def analyze_conversation (goals : List Goal) (goal : String)
    (llm : Except Unit (Option (Bool × Bool × String))) :
    List Goal × (Bool × Bool × String) :=
  match llm with
  | .error _ => (goals, (false, false, "确保对话顺利进行"))
  | .ok none => (goals, (false, false, "确保对话顺利进行"))
  | .ok (some (achieved, stop, reason)) =>
    let p := analyze_conversation_update goals goal achieved stop
    (p.1, (achieved, p.2, reason))

end GoalAnalyzer

/-- Python truthiness of an optional float: `None` and `0.0` are falsy. -/
def pyTruthyQ (o : Option ℚ) : Bool :=
  decide (o.getD 0 ≠ 0)

/-- Python truthiness of an optional string: `None` and `""` are falsy. -/
def pyTruthyStr (o : Option String) : Bool :=
  o.getD "" ≠ ""

namespace Waiter

/-- Embeds the polling loop of `Waiter.wait` (pfc.py lines 537-549), one
recursive call per 1-second `asyncio.sleep`.  `newMsg k` is the observer
answer `new_message_after(wait_start)` at the k-th poll; the loop exits
with `false` on a new message and with `true` once the elapsed time `k`
exceeds 300. -/
def waitAux (newMsg : ℕ → Bool) (k : ℕ) : Bool :=
  if newMsg k then false
  else if k > 300 then true
  else waitAux newMsg (k + 1)
termination_by 301 - k
decreasing_by
  simp only [gt_iff_lt, not_lt] at *
  omega

/-- Outcome of `Waiter.wait`: the returned flag plus the wait-start
timestamp the method stores on `chat_observer.waiting_start_time`. -/
structure WaitOutcome where
  timed_out : Bool
  waiting_start_time : ℚ
deriving DecidableEq, Repr

/-- Embeds `Waiter.wait` (pfc.py lines 527-549).  `now` is the clock at
entry (the recorded wait start); `new_message_after start t` is the
observer report at absolute time `t` of whether a message arrived
strictly after `start`.  Polls at times `now, now + 1, now + 2, ...`. -/
def wait (now : ℚ) (new_message_after : ℚ → ℚ → Bool) : WaitOutcome :=
  ⟨waitAux (fun k => new_message_after now (now + k)) 0, now⟩

end Waiter

/-- The fields of a Python message dict that `DecisionInfo.update_from_message`
and the notification handler read.  A `none` field models a missing key
(`message["time"]` raises `KeyError` when absent; the others are read with
`.get` and a default).  `user_id` is the id carried by the `user_info`
sub-dict, `none` when absent. -/
structure PyDict where
  time : Option ℚ := none
  processed_plain_text : Option String := none
  user_id : Option String := none
  content : Option String := none
  is_cold : Option Bool := none
deriving DecidableEq, Repr

/-- Embeds the `DecisionInfo` dataclass (pfc.py lines 47-66) with its
field defaults. -/
structure DecisionInfo where
  last_message_time : Option ℚ := none
  last_message_content : Option String := none
  last_message_sender : Option String := none
  new_messages_count : ℕ := 0
  unprocessed_messages : List PyDict := []
  is_cold_chat : Bool := false
  cold_chat_duration : ℚ := 0
  last_bot_speak_time : Option ℚ := none
  last_user_speak_time : Option ℚ := none
  active_users : Finset (Option String) := ∅
  bot_id : String := ""
deriving DecidableEq

namespace DecisionInfo

/-- Embeds `DecisionInfo.update_from_message` (pfc.py lines 68-87).
`message["time"]` raises `KeyError` when the key is missing, before any
field is assigned; this is the only failure the method itself can raise,
modelled as `.error`. -/
def update_from_message (d : DecisionInfo) (m : PyDict) : Except Unit DecisionInfo :=
  match m.time with
  | none => .error ()
  | some t =>
    let uid := m.user_id
    let d1 := { d with
      last_message_time := some t,
      last_message_content := some (m.processed_plain_text.getD ""),
      last_message_sender := uid }
    let d2 :=
      if uid = some d.bot_id then
        { d1 with last_bot_speak_time := some t }
      else
        { d1 with last_user_speak_time := some t,
                  active_users := insert uid d1.active_users }
    .ok { d2 with new_messages_count := d2.new_messages_count + 1,
                  unprocessed_messages := d2.unprocessed_messages ++ [m] }

/-- Embeds `DecisionInfo.update_cold_chat_status` (pfc.py lines 89-98).
The duration is recomputed only when `is_cold` holds and
`last_message_time` is truthy (so neither `None` nor `0.0`). -/
def update_cold_chat_status (d : DecisionInfo) (is_cold : Bool) (current_time : ℚ) :
    DecisionInfo :=
  let d1 := { d with is_cold_chat := is_cold }
  if is_cold && pyTruthyQ d.last_message_time then
    { d1 with cold_chat_duration := current_time - d.last_message_time.getD 0 }
  else d1

/-- Embeds `DecisionInfo.get_active_duration` (pfc.py lines 100-108):
`0.0` when `last_message_time` is falsy (`None` or `0.0`), else
`time.time() - last_message_time`. -/
def get_active_duration (d : DecisionInfo) (now : ℚ) : ℚ :=
  if !pyTruthyQ d.last_message_time then 0
  else now - d.last_message_time.getD 0

/-- Embeds `DecisionInfo.get_user_response_time` (pfc.py lines 110-118):
`None` when `last_user_speak_time` is falsy, else the elapsed time. -/
def get_user_response_time (d : DecisionInfo) (now : ℚ) : Option ℚ :=
  if !pyTruthyQ d.last_user_speak_time then none
  else some (now - d.last_user_speak_time.getD 0)

/-- Embeds `DecisionInfo.get_bot_response_time` (pfc.py lines 120-128):
`None` when `last_bot_speak_time` is falsy, else the elapsed time. -/
def get_bot_response_time (d : DecisionInfo) (now : ℚ) : Option ℚ :=
  if !pyTruthyQ d.last_bot_speak_time then none
  else some (now - d.last_bot_speak_time.getD 0)

end DecisionInfo

/-- The two notification types consumed by `PFCNotificationHandler`. -/
inductive NotifType where
  | NEW_MESSAGE
  | COLD_CHAT
deriving DecidableEq, Repr

/-- The `data` payload of a notification: either a Python dict or some
non-dict object (`isinstance(message, dict)` fails on the latter, and
`data.get` raises on it). -/
inductive NotifData where
  | dict (d : PyDict)
  | nonDict
deriving DecidableEq, Repr

/-- A notification as seen by `handle_notification`: its type and its
`data` attribute (`none` models `data is None`). -/
structure Notification where
  ntype : NotifType
  data : Option NotifData
deriving DecidableEq, Repr

/-- Embeds `PFCNotificationHandler.handle_notification` (pfc.py lines
690-736).  The argument `n = none` models a falsy/`data`-less notification
object.  Every exception is caught by one of the `try` blocks and turns
into a plain return, so the embedding is a total function on the held
`DecisionInfo`. -/
def handle_notification (n : Option Notification) (now : ℚ) (d : DecisionInfo) :
    DecisionInfo :=
  match n with
  | none => d
  | some notif =>
    match notif.data with
    | none => d
    | some .nonDict =>
      match notif.ntype with
      | .NEW_MESSAGE => d
      | .COLD_CHAT => d
    | some (.dict m) =>
      match notif.ntype with
      | .NEW_MESSAGE =>
        match d.update_from_message m with
        | .ok d' => d'
        | .error _ => d
      | .COLD_CHAT =>
        d.update_cold_chat_status (m.is_cold.getD false) now

namespace Conversation

/-- Result of the send path `_send_reply`: the conversation state on
return, whether the sender collaborator was invoked, and whether it
succeeded. -/
structure SendReplyResult where
  state : ConversationState
  attempted : Bool
  delivered : Bool
deriving DecidableEq, Repr

/-- Whether a collaborator call modelled as `Except Unit Unit` succeeded. -/
def succeeded : Except Unit Unit → Bool
  | .ok _ => true
  | .error _ => false

/-- Embeds `Conversation._send_reply` (pfc.py lines 1002-1027).
`reply` is `self.generated_reply` (`none` models the unset attribute),
`history` the observer history with limit 1, `send_outcome` the message
sender collaborator's outcome, and `st` the conversation state on entry.
A falsy reply or empty history returns without sending; otherwise the
send is attempted and state becomes `ANALYZING` whether or not the sender
raised (the `except` branch also sets it), so the result is always
`.ok`. -/
def send_reply (reply : Option String) (history : List ℚ)
    (send_outcome : Except Unit Unit) (st : ConversationState) :
    Except Unit SendReplyResult :=
  if !pyTruthyStr reply then .ok ⟨st, false, false⟩
  else if history.isEmpty then .ok ⟨st, false, false⟩
  else
    match send_outcome with
    | .ok _ => .ok ⟨ConversationState.ANALYZING, true, true⟩
    | .error _ => .ok ⟨ConversationState.ANALYZING, true, false⟩

/-- Embeds the `direct_reply` branch of `Conversation._handle_action`
(pfc.py lines 914-930).  `generated` is the reply the generation
collaborator produced and `check_verdict` is the triple
`(is_suitable, reason, need_replan)` returned by
`reply_generator.check_reply`; the branch binds that triple and then
calls `_send_reply` unconditionally, so the verdict does not occur in the
rest of the computation. -/
def handle_direct_reply (generated : String) (check_verdict : Bool × String × Bool)
    (history : List ℚ) (send_outcome : Except Unit Unit) :
    ConversationState × Except Unit SendReplyResult :=
  let st := ConversationState.GENERATING
  let _verdict := check_verdict
  (st, send_reply (some generated) history send_outcome st)

/-- An action-history entry `(action, reason, time string)` as appended by
`_handle_action`. -/
abbrev ActionHistoryEntry := String × String × String

/-- Embeds the action-history bookkeeping of `Conversation._handle_action`
(pfc.py lines 903-912): append the new entry, then keep only the last 10
entries (`self.action_history[-10:]`) when the length exceeds 10. -/
def record_action (hist : List ActionHistoryEntry) (e : ActionHistoryEntry) :
    List ActionHistoryEntry :=
  let h := hist ++ [e]
  if h.length > 10 then h.drop (h.length - 10) else h

/-- Outcome of the `judge_conversation` branch: the analyzer's goal list,
the conversation's active goal triple, and whether the stop path
`_stop_conversation` was invoked. -/
structure JudgeOutcome where
  goals : List Goal
  current : Goal
  stopped : Bool
deriving DecidableEq, Repr

/-- Embeds the `judge_conversation` branch of `Conversation._handle_action`
(pfc.py lines 948-962) composed with `GoalAnalyzer.analyze_conversation`:
run the judgment (which may pop the matched goal), then, when achieved and
not stopping, switch to `get_alternative_goals()[0]` if that list is
non-empty and return early; otherwise fall through to the stop check. -/
def handle_judge (goals : List Goal) (cur : Goal)
    (llm : Except Unit (Option (Bool × Bool × String))) : JudgeOutcome :=
  let p := GoalAnalyzer.analyze_conversation goals cur.1 llm
  let goals' := p.1
  let achieved := p.2.1
  let stop := p.2.2.1
  if achieved && !stop then
    match (GoalAnalyzer.get_alternative_goals goals').head? with
    | some alt => ⟨goals', alt, false⟩
    | none => if stop then ⟨goals', cur, true⟩ else ⟨goals', cur, false⟩
  else if stop then ⟨goals', cur, true⟩ else ⟨goals', cur, false⟩

end Conversation

namespace ActionPlanner

/-- The action tags `ActionPlanner.plan` accepts (pfc.py line 262). -/
def valid_actions : List String :=
  ["direct_reply", "fetch_knowledge", "wait", "listening", "rethink_goal", "judge_conversation"]

/-- Embeds `ActionPlanner.plan` (pfc.py lines 154-272) around the external
LLM call and the JSON extraction helper.  `outcome` is `.error` when the
guarded block raised, `.ok none` when `get_items_from_json` reported
failure, and `.ok (some (action, reason))` for a parsed result.  A raised
exception yields the fixed fallback, a parse failure its fixed fallback,
and a parsed action outside `valid_actions` is replaced by
`"listening"` while keeping the parsed reason. -/
def plan (outcome : Except Unit (Option (String × String))) : String × String :=
  match outcome with
  | .error _ => ("direct_reply", "发生错误，选择直接回复")
  | .ok none => ("direct_reply", "JSON解析失败，选择直接回复")
  | .ok (some (action, reason)) =>
    if action ∈ valid_actions then (action, reason)
    else ("listening", reason)

end ActionPlanner

end PFC

open PFC

/-! ## Helper lemmas -/

/-- The strict similarity test `overlap / total > 7/10` is equivalent to the
integer test `7 * total < 10 * overlap` (division-free, kernel-computable). -/
theorem PFC.GoalAnalyzer.similarity_gt_iff (g1 g2 : String) :
    GoalAnalyzer.calculate_similarity g1 g2 > (7 : ℚ) / 10 ↔
      7 * GoalAnalyzer.totalN g1 g2 < 10 * GoalAnalyzer.overlapN g1 g2 := by
  unfold GoalAnalyzer.calculate_similarity GoalAnalyzer.overlapN GoalAnalyzer.totalN
  simp only []
  set a := (g1.toList.toFinset ∩ g2.toList.toFinset).card with ha
  set b := (g1.toList.toFinset ∪ g2.toList.toFinset).card with hb
  have hab : a ≤ b := Finset.card_le_card Finset.inter_subset_union
  by_cases h : b > 0
  · rw [if_pos h]
    rw [gt_iff_lt, div_lt_div_iff₀ (by norm_num) (by exact_mod_cast h)]
    constructor
    · intro hlt
      have hn : 7 * b < a * 10 := by exact_mod_cast hlt
      omega
    · intro hlt
      have hn : 7 * b < a * 10 := by omega
      exact_mod_cast hn
  · rw [if_neg h]
    constructor
    · intro hc
      norm_num at hc
    · intro hc
      omega

/-- `similar_to` and its kernel-computable counterpart agree. -/
theorem PFC.GoalAnalyzer.similar_to_funext (g : String) :
    GoalAnalyzer.similar_to g = GoalAnalyzer.similar_toN g := by
  funext t
  unfold GoalAnalyzer.similar_to GoalAnalyzer.similar_toN
  rw [decide_eq_decide]
  exact GoalAnalyzer.similarity_gt_iff g t.1

/-- `update_goals` rewritten through the kernel-computable similarity test,
so that concrete instances evaluate by `decide`. -/
theorem PFC.GoalAnalyzer.update_goals_eq (goals : List Goal) (g m r : String) :
    GoalAnalyzer.update_goals goals g m r =
      match goals.findIdx? (GoalAnalyzer.similar_toN g) with
      | some i => (g, m, r) :: goals.eraseIdx i
      | none =>
        let gs := (g, m, r) :: goals
        if gs.length > 3 then gs.dropLast else gs := by
  unfold GoalAnalyzer.update_goals
  rw [GoalAnalyzer.similar_to_funext]

/-! ## Claim theorems -/

/-- C2 (counterexample): the two goal strings below have character-set
Jaccard similarity exactly `7/10`, which is at least the `0.7` threshold,
yet `_update_goals` does not replace the existing entry: the list grows
from 1 to 2 goals, because the code tests strictly `> 0.7`. -/
theorem C2_counterexample :
    GoalAnalyzer.calculate_similarity "abcdefgxy" "abcdefgh" ≥ (7 : ℚ) / 10
    ∧ (GoalAnalyzer.update_goals [("abcdefgh", "m", "r")] "abcdefgxy" "m2" "r2").length = 2 := by
  constructor
  · have h1 : ("abcdefgxy".toList.toFinset ∩ "abcdefgh".toList.toFinset).card = 7 := by decide
    have h2 : ("abcdefgxy".toList.toFinset ∪ "abcdefgh".toList.toFinset).card = 10 := by decide
    unfold GoalAnalyzer.calculate_similarity
    simp only [h1, h2]
    norm_num
  · rw [GoalAnalyzer.update_goals_eq]
    decide

/-- C2 (amended): after every `_update_goals` insertion on a list of at
most 3 goals, the list still holds at most 3 goals; if some existing goal
has similarity STRICTLY GREATER than `0.7` to the new goal, the first such
entry is replaced by the new triple and moved to the front (the length is
unchanged); otherwise the new goal is inserted at the front and, when the
list would exceed capacity 3, the last (oldest) entry is evicted. -/
theorem C2_goal_list_update (goals : List Goal) (g m r : String)
    (h : goals.length ≤ 3) :
    (GoalAnalyzer.update_goals goals g m r).length ≤ 3
    ∧ (∀ i, goals.findIdx? (GoalAnalyzer.similar_to g) = some i →
        GoalAnalyzer.update_goals goals g m r = (g, m, r) :: goals.eraseIdx i
        ∧ (GoalAnalyzer.update_goals goals g m r).length = goals.length)
    ∧ (goals.findIdx? (GoalAnalyzer.similar_to g) = none →
        GoalAnalyzer.update_goals goals g m r = ((g, m, r) :: goals).take 3) := by
  refine ⟨?_, ?_, ?_⟩
  · unfold GoalAnalyzer.update_goals
    cases hidx : goals.findIdx? (GoalAnalyzer.similar_to g) with
    | some i =>
      have hi : i < goals.length := by
        rw [List.findIdx?_eq_some_iff_getElem] at hidx
        exact hidx.1
      simp only [List.length_cons, List.length_eraseIdx_of_lt hi]
      omega
    | none =>
      simp only []
      split
      · rename_i hgt
        simp only [List.length_dropLast, List.length_cons]
        omega
      · rename_i hgt
        simp only [List.length_cons, gt_iff_lt, not_lt] at hgt ⊢
        omega
  · intro i hidx
    have hi : i < goals.length := by
      rw [List.findIdx?_eq_some_iff_getElem] at hidx
      exact hidx.1
    constructor
    · unfold GoalAnalyzer.update_goals
      rw [hidx]
    · unfold GoalAnalyzer.update_goals
      rw [hidx]
      simp only [List.length_cons, List.length_eraseIdx_of_lt hi]
      omega
  · intro hidx
    unfold GoalAnalyzer.update_goals
    rw [hidx]
    simp only []
    split
    · rename_i hgt
      simp only [List.length_cons, gt_iff_lt] at hgt
      have h4 : goals.length = 3 := by omega
      rw [List.dropLast_eq_take]
      simp only [List.length_cons, h4]
    · rename_i hgt
      simp only [List.length_cons, gt_iff_lt, not_lt] at hgt
      rw [List.take_of_length_le]
      simp only [List.length_cons]
      omega

/-- C2 (witness): replacing a textually identical goal keeps the list at
one entry, with the new triple at the front. -/
theorem C2_goal_list_update_witness :
    GoalAnalyzer.update_goals [("你好", "m", "r")] "你好" "m2" "r2" = [("你好", "m2", "r2")] :=
  ((C2_goal_list_update [("你好", "m", "r")] "你好" "m2" "r2" (by decide)).2.1 0
    (by rw [GoalAnalyzer.similar_to_funext]; decide)).1

/-- The polling loop returns `false` exactly when some poll at elapsed
time `k ≤ 301` reports a new message; otherwise it returns `true`. -/
theorem PFC.Waiter.waitAux_false_iff (g : ℕ → Bool) :
    ∀ n k, 301 - k = n → k ≤ 301 →
      (Waiter.waitAux g k = false ↔ ∃ j, k ≤ j ∧ j ≤ 301 ∧ g j = true) := by
  intro n
  induction n with
  | zero =>
    intro k hn hk
    have hk301 : k = 301 := by omega
    subst hk301
    rw [Waiter.waitAux]
    cases hg : g 301 with
    | true =>
      rw [if_pos rfl]
      constructor
      · intro _
        exact ⟨301, le_refl _, le_refl _, hg⟩
      · intro _
        rfl
    | false =>
      rw [if_neg (by simp), if_pos (show (301 : ℕ) > 300 by omega)]
      constructor
      · intro hcontr
        simp at hcontr
      · rintro ⟨j, hj1, hj2, hj3⟩
        have hj : j = 301 := by omega
        subst hj
        rw [hg] at hj3
        simp at hj3
  | succ n ih =>
    intro k hn hk
    have hk300 : k ≤ 300 := by omega
    rw [Waiter.waitAux]
    cases hg : g k with
    | true =>
      rw [if_pos rfl]
      constructor
      · intro _
        exact ⟨k, le_refl _, by omega, hg⟩
      · intro _
        rfl
    | false =>
      rw [if_neg (by simp), if_neg (show ¬ (k : ℕ) > 300 by omega)]
      rw [ih (k + 1) (by omega) (by omega)]
      constructor
      · rintro ⟨j, hj1, hj2, hj3⟩
        exact ⟨j, by omega, hj2, hj3⟩
      · rintro ⟨j, hj1, hj2, hj3⟩
        refine ⟨j, ?_, hj2, hj3⟩
        rcases Nat.eq_or_lt_of_le hj1 with heq | hlt
        · subst heq
          rw [hg] at hj3
          simp at hj3
        · omega

/-- C3: `Waiter.wait` records the wait-start timestamp (shared with the
observer via `waiting_start_time`), polls the observer once per 1 time
unit at times `now, now+1, ...`, returns `false` exactly when some poll
within elapsed time 301 reports a message arriving strictly after the wait
start, and returns `true` exactly when no such report occurs before the
300-unit ceiling is exceeded; the function is total, so these are the
only two outcomes. -/
theorem C3_waiter_wait (now : ℚ) (f : ℚ → ℚ → Bool) :
    (Waiter.wait now f).waiting_start_time = now
    ∧ ((Waiter.wait now f).timed_out = false ↔
        ∃ k : ℕ, k ≤ 301 ∧ f now (now + k) = true)
    ∧ ((Waiter.wait now f).timed_out = true ↔
        ∀ k : ℕ, k ≤ 301 → f now (now + k) = false) := by
  have hbase := Waiter.waitAux_false_iff (fun k : ℕ => f now (now + k)) 301 0 rfl (by omega)
  have hto : (Waiter.wait now f).timed_out
      = Waiter.waitAux (fun k : ℕ => f now (now + k)) 0 := rfl
  refine ⟨rfl, ?_, ?_⟩
  · rw [hto, hbase]
    constructor
    · rintro ⟨j, _, hj2, hj3⟩
      exact ⟨j, hj2, hj3⟩
    · rintro ⟨k, hk1, hk2⟩
      exact ⟨k, by omega, hk1, hk2⟩
  · rw [hto]
    constructor
    · intro htrue k hk
      by_contra hcontr
      have hfalse : Waiter.waitAux (fun k : ℕ => f now (now + k)) 0 = false :=
        hbase.mpr ⟨k, by omega, hk, by simpa using hcontr⟩
      rw [htrue] at hfalse
      simp at hfalse
    · intro hall
      by_contra hcontr
      have hfalse : Waiter.waitAux (fun k : ℕ => f now (now + k)) 0 = false := by
        cases hv : Waiter.waitAux (fun k : ℕ => f now (now + k)) 0 with
        | true => exact absurd hv hcontr
        | false => rfl
      rcases hbase.mp hfalse with ⟨j, _, hj2, hj3⟩
      have hj3' : f now (now + j) = true := hj3
      rw [hall j hj2] at hj3'
      simp at hj3'

/-- C3 (witness): with an observer that immediately reports a new message
the wait returns `false` and records start time 5. -/
theorem C3_waiter_wait_witness :
    (Waiter.wait 5 (fun _ _ => true)).waiting_start_time = 5
    ∧ (Waiter.wait 5 (fun _ _ => true)).timed_out = false :=
  ⟨(C3_waiter_wait 5 (fun _ _ => true)).1,
   ((C3_waiter_wait 5 (fun _ _ => true)).2.1).mpr ⟨0, by omega, rfl⟩⟩

/-- C4: evaluation of the `judge_conversation` handler at the failing
input.  With goals `[A, B]`, active goal `A`, and a parsed judgment
`goal_achieved = true, stop_conversation = false`, the analyzer removes
`A` from the list (leaving `[B]`) and the stop path is not invoked, but
the active goal is NOT switched to the remaining goal `B`: after the
removal `get_alternative_goals` computes `goals[1:]` on the one-element
list `[B]` and yields `[]`, so the handler keeps `A` as the active goal,
contradicting the claim (and the handler's own stated intent of switching
to the next goal when others remain). -/
theorem C4_judge_keeps_old_goal :
    Conversation.handle_judge
        [("目标A", "m1", "r1"), ("目标B", "m2", "r2")] ("目标A", "m1", "r1")
        (.ok (some (true, false, "目标已达成")))
      = ⟨[("目标B", "m2", "r2")], ("目标A", "m1", "r1"), false⟩ := by
  decide

/-- C5: `_send_reply` never lets an exception escape; with a falsy
generated reply or no prior message it returns without sending and
without changing the conversation state; otherwise it attempts the send
and sets the state to `ANALYZING` whether or not the sender collaborator
raised, so the decision loop is not terminated. -/
theorem C5_send_reply (reply : Option String) (hist : List ℚ)
    (so : Except Unit Unit) (st : ConversationState) :
    (∃ res, Conversation.send_reply reply hist so st = .ok res)
    ∧ (pyTruthyStr reply = false →
        Conversation.send_reply reply hist so st = .ok ⟨st, false, false⟩)
    ∧ (hist = [] →
        Conversation.send_reply reply hist so st = .ok ⟨st, false, false⟩)
    ∧ (pyTruthyStr reply = true → hist ≠ [] →
        Conversation.send_reply reply hist so st
          = .ok ⟨ConversationState.ANALYZING, true, Conversation.succeeded so⟩) := by
  refine ⟨?_, ?_, ?_, ?_⟩
  · unfold Conversation.send_reply
    split
    · exact ⟨_, rfl⟩
    · split
      · exact ⟨_, rfl⟩
      · cases so with
        | ok _ => exact ⟨_, rfl⟩
        | error _ => exact ⟨_, rfl⟩
  · intro hfalsy
    unfold Conversation.send_reply
    rw [if_pos (by simp [hfalsy])]
  · intro hnil
    unfold Conversation.send_reply
    subst hnil
    split
    · rfl
    · rw [if_pos (by simp)]
  · intro htruthy hne
    unfold Conversation.send_reply
    rw [if_neg (by simp [htruthy])]
    rw [if_neg (by simp [List.isEmpty_iff, hne])]
    cases so with
    | ok _ => rfl
    | error _ => rfl

/-- C5 (witness): a raising sender still yields a normal return with
state `ANALYZING`. -/
theorem C5_send_reply_witness :
    Conversation.send_reply (some "你好") [1] (.error ()) ConversationState.GENERATING
      = .ok ⟨ConversationState.ANALYZING, true, false⟩ :=
  (C5_send_reply (some "你好") [1] (.error ()) ConversationState.GENERATING).2.2.2
    (by decide) (by decide)

/-- C6: in the `direct_reply` branch the acceptability-check verdict is
bound and then discarded: the branch outcome is identical for any two
verdicts, and whenever the generated reply is non-empty and a prior
message exists the candidate is handed to the send path (the send is
attempted) regardless of reject or need-replan verdicts; no verdict
triggers regeneration. -/
theorem C6_direct_reply_ignores_check (g : String) (v v' : Bool × String × Bool)
    (hist : List ℚ) (so : Except Unit Unit) :
    Conversation.handle_direct_reply g v hist so = Conversation.handle_direct_reply g v' hist so
    ∧ (g ≠ "" → hist ≠ [] →
        (Conversation.handle_direct_reply g v hist so).2
          = .ok ⟨ConversationState.ANALYZING, true, Conversation.succeeded so⟩) := by
  constructor
  · rfl
  · intro hg hne
    show Conversation.send_reply (some g) hist so ConversationState.GENERATING = _
    unfold Conversation.send_reply
    rw [if_neg (by simp [pyTruthyStr, hg])]
    rw [if_neg (by simp [List.isEmpty_iff, hne])]
    cases so with
    | ok _ => rfl
    | error _ => rfl

/-- C6 (witness): a rejected, replan-requesting verdict still sends. -/
theorem C6_direct_reply_ignores_check_witness :
    (Conversation.handle_direct_reply "你好" (false, "不合适", true) [1] (.error ())).2
      = .ok ⟨ConversationState.ANALYZING, true, false⟩ :=
  (C6_direct_reply_ignores_check "你好" (false, "不合适", true) (true, "好", false)
    [1] (.error ())).2 (by decide) (by decide)

/-- C7: `handle_notification` drops malformed notifications without
mutating `DecisionInfo`: a falsy notification object, a `None` payload, a
non-dict new-message payload, and a message dict whose `"time"` key is
missing (so the `DecisionInfo` update raises) all leave the state exactly
as it was; more generally any failing `DecisionInfo` update is caught, and
the embedding is a total function, so no failure while processing one
notification propagates to the caller. -/
theorem C7_handle_notification (now : ℚ) (d : DecisionInfo) :
    handle_notification none now d = d
    ∧ (∀ t, handle_notification (some ⟨t, none⟩) now d = d)
    ∧ (∀ t, handle_notification (some ⟨t, some .nonDict⟩) now d = d)
    ∧ (∀ m, m.time = none →
        handle_notification (some ⟨.NEW_MESSAGE, some (.dict m)⟩) now d = d)
    ∧ (∀ m, d.update_from_message m = .error () →
        handle_notification (some ⟨.NEW_MESSAGE, some (.dict m)⟩) now d = d) := by
  refine ⟨rfl, ?_, ?_, ?_, ?_⟩
  · intro t
    cases t <;> rfl
  · intro t
    cases t <;> rfl
  · intro m hm
    have herr : d.update_from_message m = .error () := by
      unfold DecisionInfo.update_from_message
      rw [hm]
    show (match d.update_from_message m with | .ok d' => d' | .error _ => d) = d
    rw [herr]
  · intro m hm
    show (match d.update_from_message m with | .ok d' => d' | .error _ => d) = d
    rw [hm]

/-- C7 (witness): a new-message notification whose dict lacks the
`"time"` key leaves a default `DecisionInfo` unchanged. -/
theorem C7_handle_notification_witness :
    handle_notification (some ⟨.NEW_MESSAGE, some (.dict {})⟩) 0 ({} : DecisionInfo)
      = ({} : DecisionInfo) :=
  (C7_handle_notification 0 ({} : DecisionInfo)).2.2.2.1 {} rfl

/-- C8 (counterexample): the claim fails on Python truthiness and on the
active-duration default.  With `last_user_speak_time` SET to `0.0`,
`get_user_response_time` returns `None` instead of `now - 0.0` (the code
tests `not self.last_user_speak_time`, and `0.0` is falsy); and with
`last_message_time` UNSET, `get_active_duration` returns the numeric
duration `0.0`, not a non-numeric unknown marker. -/
theorem C8_counterexample :
    ({ last_user_speak_time := some 0 } : DecisionInfo).last_user_speak_time = some 0
    ∧ DecisionInfo.get_user_response_time ({ last_user_speak_time := some 0 } : DecisionInfo) 7
        = none
    ∧ ({} : DecisionInfo).last_message_time = none
    ∧ DecisionInfo.get_active_duration ({} : DecisionInfo) 7 = 0 := by
  refine ⟨rfl, ?_, rfl, ?_⟩
  · unfold DecisionInfo.get_user_response_time
    rw [if_pos (by simp [pyTruthyQ])]
  · unfold DecisionInfo.get_active_duration
    rw [if_pos (by simp [pyTruthyQ])]

/-- C8 (amended): `get_user_response_time` and `get_bot_response_time`
return `now` minus the relevant timestamp when that timestamp is set AND
nonzero, and `None` when it is unset or set to `0.0`;
`get_active_duration` returns `now - last_message_time` when that
timestamp is set and nonzero, and the numeric value `0.0` (not a
distinguishable unknown marker) when it is unset or zero. -/
theorem C8_derived_queries (d : DecisionInfo) (now : ℚ) :
    (∀ t, d.last_user_speak_time = some t → t ≠ 0 →
        d.get_user_response_time now = some (now - t))
    ∧ ((d.last_user_speak_time = none ∨ d.last_user_speak_time = some 0) →
        d.get_user_response_time now = none)
    ∧ (∀ t, d.last_bot_speak_time = some t → t ≠ 0 →
        d.get_bot_response_time now = some (now - t))
    ∧ ((d.last_bot_speak_time = none ∨ d.last_bot_speak_time = some 0) →
        d.get_bot_response_time now = none)
    ∧ (∀ t, d.last_message_time = some t → t ≠ 0 →
        d.get_active_duration now = now - t)
    ∧ ((d.last_message_time = none ∨ d.last_message_time = some 0) →
        d.get_active_duration now = 0) := by
  refine ⟨?_, ?_, ?_, ?_, ?_, ?_⟩
  · intro t hset ht
    unfold DecisionInfo.get_user_response_time
    rw [if_neg (by simp [pyTruthyQ, hset, ht]), hset]
    rfl
  · intro hunset
    unfold DecisionInfo.get_user_response_time
    rcases hunset with h | h <;> rw [if_pos (by simp [pyTruthyQ, h])]
  · intro t hset ht
    unfold DecisionInfo.get_bot_response_time
    rw [if_neg (by simp [pyTruthyQ, hset, ht]), hset]
    rfl
  · intro hunset
    unfold DecisionInfo.get_bot_response_time
    rcases hunset with h | h <;> rw [if_pos (by simp [pyTruthyQ, h])]
  · intro t hset ht
    unfold DecisionInfo.get_active_duration
    rw [if_neg (by simp [pyTruthyQ, hset, ht]), hset]
    rfl
  · intro hunset
    unfold DecisionInfo.get_active_duration
    rcases hunset with h | h <;> rw [if_pos (by simp [pyTruthyQ, h])]

/-- C8 (witness): with all three timestamps set to nonzero values the
three queries return the elapsed times. -/
theorem C8_derived_queries_witness :
    DecisionInfo.get_user_response_time
        ({ last_message_time := some 3, last_bot_speak_time := some 5,
           last_user_speak_time := some 4 } : DecisionInfo) 10 = some (10 - 4 : ℚ)
    ∧ DecisionInfo.get_bot_response_time
        ({ last_message_time := some 3, last_bot_speak_time := some 5,
           last_user_speak_time := some 4 } : DecisionInfo) 10 = some (10 - 5 : ℚ)
    ∧ DecisionInfo.get_active_duration
        ({ last_message_time := some 3, last_bot_speak_time := some 5,
           last_user_speak_time := some 4 } : DecisionInfo) 10 = (10 - 3 : ℚ) :=
  ⟨(C8_derived_queries _ 10).1 4 rfl (by norm_num),
   (C8_derived_queries _ 10).2.2.1 5 rfl (by norm_num),
   (C8_derived_queries _ 10).2.2.2.2.1 3 rfl (by norm_num)⟩

/-- C9: recording an action keeps exactly the most recent entries, in
order: the history after recording is precisely the suffix of
`old ++ [new]` obtained by dropping everything before the last 10
entries, its length is `min (old.length + 1) 10` and hence never exceeds
10, and it is a suffix of `old ++ [new]` (so overflowing drops the oldest
entries first). -/
theorem C9_action_history (hist : List Conversation.ActionHistoryEntry)
    (e : Conversation.ActionHistoryEntry) :
    Conversation.record_action hist e
        = (hist ++ [e]).drop ((hist ++ [e]).length - 10)
    ∧ (Conversation.record_action hist e).length = min (hist ++ [e]).length 10
    ∧ (Conversation.record_action hist e).length ≤ 10
    ∧ (Conversation.record_action hist e).IsSuffix (hist ++ [e]) := by
  unfold Conversation.record_action
  by_cases hl : (hist ++ [e]).length > 10
  · rw [if_pos hl]
    refine ⟨rfl, ?_, ?_, List.drop_suffix _ _⟩
    · rw [List.length_drop]
      omega
    · rw [List.length_drop]
      omega
  · rw [if_neg hl]
    simp only [gt_iff_lt, not_lt] at hl
    refine ⟨?_, ?_, ?_, List.suffix_refl _⟩
    · rw [show (hist ++ [e]).length - 10 = 0 by omega, List.drop_zero]
    · omega
    · omega

/-- C10: `ActionPlanner.plan` is a total function of the collaborator
outcome whose returned action tag always lies in the six valid actions: a
raised exception or a failed JSON extraction yields `direct_reply` with
its fixed fallback reason, a parsed action outside the valid set is
replaced by `listening` (keeping the parsed reason), and a valid parsed
action is returned as-is. -/
theorem C10_plan (o : Except Unit (Option (String × String))) :
    (ActionPlanner.plan o).1 ∈ ActionPlanner.valid_actions
    ∧ (o = .error () → ActionPlanner.plan o = ("direct_reply", "发生错误，选择直接回复"))
    ∧ (o = .ok none → ActionPlanner.plan o = ("direct_reply", "JSON解析失败，选择直接回复"))
    ∧ (∀ a r, o = .ok (some (a, r)) → a ∉ ActionPlanner.valid_actions →
        ActionPlanner.plan o = ("listening", r))
    ∧ (∀ a r, o = .ok (some (a, r)) → a ∈ ActionPlanner.valid_actions →
        ActionPlanner.plan o = (a, r)) := by
  refine ⟨?_, ?_, ?_, ?_, ?_⟩
  · cases o with
    | error e =>
      show "direct_reply" ∈ ActionPlanner.valid_actions
      decide
    | ok p =>
      cases p with
      | none =>
        show "direct_reply" ∈ ActionPlanner.valid_actions
        decide
      | some pr =>
        obtain ⟨a, r⟩ := pr
        show (if a ∈ ActionPlanner.valid_actions then (a, r)
            else ("listening", r)).1 ∈ ActionPlanner.valid_actions
        split
        · rename_i hmem
          exact hmem
        · show "listening" ∈ ActionPlanner.valid_actions
          decide
  · intro ho
    subst ho
    rfl
  · intro ho
    subst ho
    rfl
  · intro a r ho hmem
    subst ho
    show (if a ∈ ActionPlanner.valid_actions then (a, r) else ("listening", r)) = ("listening", r)
    rw [if_neg hmem]
  · intro a r ho hmem
    subst ho
    show (if a ∈ ActionPlanner.valid_actions then (a, r) else ("listening", r)) = (a, r)
    rw [if_pos hmem]

/-- C10 (witness): an unknown parsed action is normalized to
`listening` with the parsed reason kept. -/
theorem C10_plan_witness :
    ActionPlanner.plan (.ok (some ("sing_song", "想唱歌"))) = ("listening", "想唱歌") :=
  (C10_plan (.ok (some ("sing_song", "想唱歌")))).2.2.2.1 "sing_song" "想唱歌" rfl (by decide)
